import Mathlib

/-!
Verification development for the retro-pico-multimode-clock-source firmware.

The C sources under src/ are embedded shallowly: every static-state module
becomes a Lean structure plus pure transition functions, machine integers
become Nat (with explicit `% 2 ^ 16` where a narrowing conversion matters),
and the float arithmetic of the free-form PWM solver is modelled by exact
rational arithmetic (the margins involved dwarf one ulp of binary32).
Hardware side effects (gpio writes, pwm registers, printf) are dropped or
recorded as returned data; the decision logic is kept verbatim.
-/

namespace RetroClock

/-- Clock operating modes, mirroring the `clock_mode_t` enum of src/main.c. -/
inductive ClockMode where
  | MODE_SINGLE_STEP
  | MODE_LOW_FREQ
  | MODE_HIGH_FREQ
  | MODE_UART_CONTROL
deriving DecidableEq, Repr

open ClockMode

/-- DEBOUNCE_DELAY_MS from src/config.h (50 ms). -/
def DEBOUNCE_DELAY_MS : Nat := 50

/-- HIGH_FREQ_OUTPUT from src/config.h (fixed 1 MHz). -/
def HIGH_FREQ_OUTPUT : Nat := 1000000

/-- UART_MENU_TIMEOUT_MS from src/config.h (30 s). -/
def UART_MENU_TIMEOUT_MS : Nat := 30000

/-- UART_CMD_BUFFER_SIZE from src/config.h. -/
def UART_CMD_BUFFER_SIZE : Nat := 32

/-- MIN_UART_FREQ from src/config.h. -/
def MIN_UART_FREQ : Nat := 1

/-- MAX_UART_FREQ from src/config.h. -/
def MAX_UART_FREQ : Nat := 1000000

/-- MIN_LOW_FREQ from src/config.h. -/
def MIN_LOW_FREQ : Nat := 1

/-- MAX_LOW_FREQ_RANGE1 from src/config.h. -/
def MAX_LOW_FREQ_RANGE1 : Nat := 100

/-- MAX_LOW_FREQ_RANGE2 from src/config.h. -/
def MAX_LOW_FREQ_RANGE2 : Nat := 100000

/-- Modelled from the spec: the constant RESET_CYCLES is referenced by
src/reset_control.c and src/main.c but its `#define` is not among the provided
sources; the spec fixes cycles_needed at 6 for both reset strategies, and the
code's own progress message counts "cycle %d/6". -/
def RESET_CYCLES : Nat := 6

/-! ## Reset sequencer (src/reset_control.c) -/

/-- Module-static state of src/reset_control.c (equivalently the reset
variables of src/main.c). -/
structure ResetState where
  reset_active : Bool
  reset_output_state : Bool
  reset_cycle_count : Nat
  reset_start_time : Nat
  reset_high_led_timer : Nat
  reset_waiting_for_edge : Bool
  last_clock_state_for_reset : Bool
deriving DecidableEq, Repr

/-- State established by `reset_control_init` (src/reset_control.c lines 27-36). -/
def reset_control_init : ResetState :=
  { reset_active := false
    reset_output_state := true
    reset_cycle_count := 0
    reset_start_time := 0
    reset_high_led_timer := 0
    reset_waiting_for_edge := false
    last_clock_state_for_reset := false }

/-- Embedding of `start_reset_pulse` (src/reset_control.c lines 52-60).
`mode` is the value read from `get_current_mode()`, `clock_state` the value
read from `get_clock_state()`, and `now` the millisecond timestamp.
`set_reset_output(false)` is recorded in `reset_output_state`. -/
def start_reset_pulse (mode : ClockMode) (clock_state : Bool) (now : Nat)
    (s : ResetState) : ResetState :=
  { s with
    reset_active := true
    reset_cycle_count := 0
    reset_start_time := now
    reset_waiting_for_edge := mode = MODE_SINGLE_STEP
    last_clock_state_for_reset := clock_state
    reset_output_state := false }

/-- The `current_mode == MODE_SINGLE_STEP` branch of `update_reset_state`
(src/reset_control.c lines 67-82): count low-to-high transitions while the
captured `reset_waiting_for_edge` flag is set, finish after RESET_CYCLES,
and refresh the level snapshot every tick. -/
def reset_edge_branch (clock_state : Bool) (now : Nat) (s : ResetState) :
    ResetState :=
  let s1 :=
    if s.reset_waiting_for_edge && !s.last_clock_state_for_reset && clock_state then
      let c := s.reset_cycle_count + 1
      if c ≥ RESET_CYCLES then
        { s with
          reset_cycle_count := c
          reset_output_state := true
          reset_active := false
          reset_high_led_timer := now }
      else
        { s with reset_cycle_count := c }
    else s
  { s1 with last_clock_state_for_reset := clock_state }

/-- The `required_ms` selection of `update_reset_state` before the final
clamp (src/reset_control.c lines 89-102), including the 60 ms fallback and
the 1 ms floor of the high-frequency branch.  All divisions are C unsigned
divisions, i.e. truncating. -/
def reset_required_raw (mode : ClockMode) (current_frequency uart_set_frequency : Nat) :
    Nat :=
  if mode = MODE_LOW_FREQ ∧ current_frequency > 0 then
    RESET_CYCLES * 1000 / current_frequency
  else if mode = MODE_HIGH_FREQ then
    if RESET_CYCLES * 1000 / HIGH_FREQ_OUTPUT = 0 then 1
    else RESET_CYCLES * 1000 / HIGH_FREQ_OUTPUT
  else if mode = MODE_UART_CONTROL ∧ uart_set_frequency > 0 then
    RESET_CYCLES * 1000 / uart_set_frequency
  else
    60

/-- The time budget of `update_reset_state` after the final 10 ms clamp
(src/reset_control.c line 105). -/
def reset_required_ms (mode : ClockMode) (current_frequency uart_set_frequency : Nat) :
    Nat :=
  if reset_required_raw mode current_frequency uart_set_frequency < 10 then 10
  else reset_required_raw mode current_frequency uart_set_frequency

/-- The timed (non-single-step) branch of `update_reset_state`
(src/reset_control.c lines 83-113). -/
def reset_timed_branch (mode : ClockMode) (current_frequency uart_set_frequency now : Nat)
    (s : ResetState) : ResetState :=
  let elapsed_ms := now - s.reset_start_time
  let required_ms := reset_required_ms mode current_frequency uart_set_frequency
  if elapsed_ms ≥ required_ms then
    { s with
      reset_output_state := true
      reset_active := false
      reset_high_led_timer := now }
  else s

/-- Embedding of `update_reset_state` (src/reset_control.c lines 62-113).
The branch taken is decided by the mode read from `get_current_mode()` at
this call, not by the flag captured when the session started. -/
def update_reset_state (mode : ClockMode) (clock_state : Bool)
    (current_frequency uart_set_frequency now : Nat) (s : ResetState) : ResetState :=
  if !s.reset_active then s
  else if mode = MODE_SINGLE_STEP then
    reset_edge_branch clock_state now s
  else
    reset_timed_branch mode current_frequency uart_set_frequency now s

/-! ## Mode controller and command-session globals (src/main.c) -/

/-- The process-wide mutable variables of src/main.c that the mode controller
and the command interpreter touch.  Hardware-only effects (gpio levels, pwm
registers, the repeating-timer handle) are represented by their shadow
booleans where the code keeps one. -/
structure SystemState where
  current_mode : ClockMode
  clock_state : Bool
  current_frequency : Nat
  single_step_active : Bool
  timer_active : Bool
  uart_timer_active : Bool
  uart_clock_running : Bool
  uart_set_frequency : Nat
  uart_cmd_index : Nat
  uart_menu_timeout : Nat
  uart_pwm_active : Bool
deriving DecidableEq, Repr

/-- Embedding of `update_low_frequency` (src/main.c lines 397-419).
`pot_freq` stands for `calculate_frequency_from_pot(adc_read())`, the
frequency derived from the sampled potentiometer. -/
def update_low_frequency (pot_freq : Nat) (s : SystemState) : SystemState :=
  if pot_freq ≠ s.current_frequency then
    let s1 := { s with current_frequency := pot_freq, timer_active := false }
    if pot_freq > 0 then { s1 with timer_active := true } else s1
  else s

/-- Embedding of `set_mode` (src/main.c lines 313-356): cancel the
low-frequency timer and the legacy uart alarm, stop high-frequency and
uart PWM generation, install the new mode, clear `single_step_active` and
`uart_clock_running`, force the clock output low, then run the per-mode
entry action.  `pot_freq` is the potentiometer frequency sampled on a
LOW_FREQ entry and `now` the millisecond timestamp used for the UART
deadline. -/
def set_mode (mode : ClockMode) (pot_freq now : Nat) (s : SystemState) : SystemState :=
  let s1 := { s with timer_active := false, uart_timer_active := false,
                     uart_pwm_active := false }
  let s2 := { s1 with current_mode := mode, single_step_active := false,
                      uart_clock_running := false, clock_state := false }
  match mode with
  | MODE_SINGLE_STEP => { s2 with current_frequency := 0 }
  | MODE_LOW_FREQ => update_low_frequency pot_freq s2
  | MODE_HIGH_FREQ => { s2 with current_frequency := HIGH_FREQ_OUTPUT }
  | MODE_UART_CONTROL =>
      { s2 with current_frequency := 0, uart_set_frequency := 0,
                uart_menu_timeout := now + UART_MENU_TIMEOUT_MS }

/-- Embedding of `reset_uart_control_state` (src/uart_control.c lines 303-308):
clears the running flag, the remembered frequency and the line-buffer cursor,
and stops uart generation.  No function in src/ calls it. -/
def reset_uart_control_state (s : SystemState) : SystemState :=
  { s with uart_clock_running := false, uart_set_frequency := 0,
           uart_cmd_index := 0, uart_timer_active := false,
           uart_pwm_active := false }

/-! ## Power toggle (src/power_control.c, src/uart_control.c) -/

/-- Embedding of `toggle_power_state` (src/power_control.c lines 35-44):
flip the power latch and, exactly on the OFF-to-ON transition, force the
mode controller into single-step mode via `set_mode`.  Returns the new
power latch alongside the system state. -/
def toggle_power_state (power : Bool) (pot_freq now : Nat) (s : SystemState) :
    Bool × SystemState :=
  let old_power_state := power
  let p2 := !power
  if !old_power_state && p2 then
    (p2, set_mode MODE_SINGLE_STEP pot_freq now s)
  else
    (p2, s)

/-- Embedding of the `power on` branch of `process_uart_command`
(src/uart_control.c lines 170-179): set the latch to ON and, when that was
an OFF-to-ON transition, force single-step mode. -/
def uart_power_on_command (power : Bool) (pot_freq now : Nat) (s : SystemState) :
    Bool × SystemState :=
  let old_power_state := power
  let p2 := true
  if !old_power_state && p2 then
    (p2, set_mode MODE_SINGLE_STEP pot_freq now s)
  else
    (p2, s)

/-! ## UART-mode exit logic (src/uart_control.c, src/main.c) -/

/-- Embedding of `any_button_pressed` (src/main.c lines 812-816,
src/button_handler.c lines 60-64).  Each argument is the active-low reading
`!gpio_get(pin)` of the corresponding button: the function consults only the
three mode-select buttons. -/
def any_button_pressed (single_step_down low_freq_down high_freq_down : Bool) : Bool :=
  single_step_down || low_freq_down || high_freq_down

/-- Embedding of the exit decision of `handle_uart_control`
(src/uart_control.c lines 47-66): returns `some prev` when the handler calls
`set_mode(get_previous_mode())`, `none` when it goes on to poll the byte
stream.  `reset_down` and `power_down` are the active-low readings of the
reset and power buttons; the source never consults them here. -/
def handle_uart_control_exit (single_step_down low_freq_down high_freq_down
    reset_down power_down : Bool) (now timeout : Nat) (prev : ClockMode) :
    Option ClockMode :=
  if any_button_pressed single_step_down low_freq_down high_freq_down then
    some prev
  else if now > timeout then
    some prev
  else
    none

/-- Refinement comparison point, written from the claim's words: a press of
ANY of the five physical buttons, or deadline expiry, exits back to the
remembered previous mode. -/
def claim_uart_exit (single_step_down low_freq_down high_freq_down
    reset_down power_down : Bool) (now timeout : Nat) (prev : ClockMode) :
    Option ClockMode :=
  if single_step_down || low_freq_down || high_freq_down || reset_down || power_down then
    some prev
  else if now > timeout then
    some prev
  else
    none

/-! ## Debounce tracker (src/button_handler.c, src/main.c) -/

/-- Embedding of `button_pressed` (src/button_handler.c lines 27-37,
src/main.c lines 301-311).  `last_button_time` is the per-input timer array,
`pressed` the active-low reading `!gpio_get(pin)`, `now` the millisecond
timestamp; the result pairs the return value with the updated array.  The
uint32 subtraction is modelled by truncated Nat subtraction (timestamps are
monotone, so `now` never precedes a stored time). -/
def button_pressed (last_button_time : Fin 5 → Nat) (button_index : Fin 5)
    (pressed : Bool) (now : Nat) : Bool × (Fin 5 → Nat) :=
  if pressed && decide (now - last_button_time button_index > DEBOUNCE_DELAY_MS) then
    (true, Function.update last_button_time button_index now)
  else
    (false, last_button_time)

/-! ## Potentiometer mapping (src/clock_generator.c) -/

/-- Embedding of `calculate_frequency_from_pot` (src/clock_generator.c
lines 65-78), the integer-arithmetic mapping of a 12-bit ADC sample to a
frequency.  All divisions are C unsigned divisions (truncating); no
intermediate product overflows 32 bits. -/
def calculate_frequency_from_pot (adc_value : Nat) : Nat :=
  if adc_value ≤ 819 then
    MIN_LOW_FREQ + adc_value * (MAX_LOW_FREQ_RANGE1 - MIN_LOW_FREQ) / 819
  else
    MAX_LOW_FREQ_RANGE1 + (adc_value - 819) * (MAX_LOW_FREQ_RANGE2 - MAX_LOW_FREQ_RANGE1) / 3276

/-! ## Banded PWM solver (spec §4.2) and fixed high-speed path -/

/-- Modelled from the spec: the banded primary PWM parameter solver
`solve_duty_params` of spec §4.2 is not among the sources under src/ (the
snapshot there only contains the free-form uart solver and the fixed 1 MHz
path).  Follows the spec's words: reference clock 125,000,000 Hz; below
8 Hz the hard floor pair (255, 65535); in [8, 1000) divider fixed at 255
and `wrap = R/(255*target) - 1` clamped to 65535; at or above 1000 Hz wrap
fixed at 124 with `divider = R/(target*125)`, and when that divider falls
below 1 it is clamped to 1 with `wrap = R/target - 1` clamped to 65535.
`level = wrap/2` throughout.  Result is (divider, wrap, level). -/
def solve_duty_params (target_hz : Nat) : Nat × Nat × Nat :=
  if target_hz < 8 then
    (255, 65535, 65535 / 2)
  else if target_hz < 1000 then
    (255, min (125000000 / (255 * target_hz) - 1) 65535,
      min (125000000 / (255 * target_hz) - 1) 65535 / 2)
  else if 125000000 / (target_hz * 125) < 1 then
    (1, min (125000000 / target_hz - 1) 65535,
      min (125000000 / target_hz - 1) 65535 / 2)
  else
    (125000000 / (target_hz * 125), 124, 124 / 2)

/-- The constant parameter triple of the fixed high-speed path, from
`start_high_frequency` (src/clock_generator.c lines 85-104): clkdiv 125,
wrap 1, channel level 1. -/
def start_high_frequency_params : Nat × Nat × Nat := (125, 1, 1)

/-! ## The `freq` command (src/uart_control.c lines 130-154)

The line assembler (`handle_uart_control`) admits only printable ASCII
bytes (32..126) into the command buffer, so by the time a token reaches
`strtol` the only whitespace character it could contain is a space, and the
caller has already stripped leading spaces; the initial whitespace skip of
`strtol` is therefore a no-op and is omitted from the model.  C `long`
overflow clamps `strtol` to LONG_MAX = 2147483647; since that exceeds
MAX_UART_FREQ the accept/reject decision is unchanged by modelling the
value exactly, which the model does. -/

/-- Optional sign consumed by `strtol`. -/
def strtol_sign (cs : List Char) : Int × List Char :=
  match cs with
  | [] => (1, [])
  | c :: rest =>
      if c = '+' then (1, rest)
      else if c = '-' then (-1, rest)
      else (1, c :: rest)

/-- Value of a digit string, most significant first. -/
def digits_to_nat (ds : List Char) : Nat :=
  ds.foldl (fun acc c => acc * 10 + (c.toNat - 48)) 0

/-- State of src/uart_control.c that the `freq` branch can touch. -/
structure UartState where
  uart_clock_running : Bool
  uart_set_frequency : Nat
  uart_pwm_active : Bool
deriving DecidableEq, Repr

/-- Responses the `freq` branch can print. -/
inductive FreqResponse where
  | missingValue
  | invalidFormat
  | outOfRange
  | accepted (hz : Nat)
deriving DecidableEq, Repr

/-- Embedding of the `freq ` branch of `process_uart_command`
(src/uart_control.c lines 130-154).  `arg` is the text after the `freq `
prefix.  On acceptance the code stores the frequency, calls
`start_uart_frequency` (which for a value in (0, MAX_UART_FREQ] reaches
`start_uart_pwm` and sets `uart_pwm_active`), and raises the running flag. -/
def freq_command (arg : List Char) (s : UartState) : FreqResponse × UartState :=
  let freq_str := arg.dropWhile (fun c => c = ' ')
  if freq_str.isEmpty then
    (FreqResponse.missingValue, s)
  else
    let sr := strtol_sign freq_str
    let ds := sr.2.takeWhile Char.isDigit
    let rest := sr.2.dropWhile Char.isDigit
    let freq_long : Int := sr.1 * (digits_to_nat ds : Int)
    if ds.isEmpty ∨ ¬rest.isEmpty then
      (FreqResponse.invalidFormat, s)
    else if freq_long < (MIN_UART_FREQ : Int) ∨ freq_long > (MAX_UART_FREQ : Int) then
      (FreqResponse.outOfRange, s)
    else
      (FreqResponse.accepted freq_long.toNat,
        { s with uart_set_frequency := freq_long.toNat,
                 uart_clock_running := true,
                 uart_pwm_active := true })

/-- A pure (digit-only, nonempty) integer token — the claim's acceptance
criterion. -/
def pure_digit_token (cs : List Char) : Bool :=
  !cs.isEmpty && cs.all Char.isDigit

/-- The acceptance predicate `freq_command` actually implements, on the
space-stripped token: an optional leading plus sign, then one or more
digits and nothing else, with value in [MIN_UART_FREQ, MAX_UART_FREQ]
(a minus sign always fails the range check, so it never yields acceptance). -/
def freq_token_accept (t : List Char) (v : Nat) : Bool :=
  let ds := if t.head? = some '+' then t.tail else t
  !ds.isEmpty && ds.all Char.isDigit && decide (digits_to_nat ds = v)
    && decide (MIN_UART_FREQ ≤ v) && decide (v ≤ MAX_UART_FREQ)

/-! ## Free-form uart PWM solver (src/uart_control.c lines 215-270,
src/main.c lines 740-795)

The C routine computes with binary32 floats.  The model computes the same
expressions with exact rational arithmetic: every comparison and every
truncation below sits at least half an integer away from its decision
boundary at the inputs the theorems evaluate, far beyond one ulp of
binary32 at these magnitudes.  The out-of-range `(uint16_t)` conversion of
a float (undefined behavior in ISO C) is modelled as truncation toward
zero followed by reduction mod 2^16, which is what the arm-none-eabi
soft-float conversion produces on this target. -/

/-- Parameters handed to the PWM hardware by `start_uart_pwm`, plus the
recorded outcome of the dead `if (wrap > 65535)` test of the grow branch
(`false` whenever the branch is not taken). -/
structure UartPwmParams where
  divider : ℚ
  wrap : Nat
  level : Nat
  grow_clamp_test : Bool
deriving DecidableEq, Repr

/-- Embedding of `start_uart_pwm` (src/uart_control.c lines 215-270):
seed wrap at 1000; if the divider exceeds 255 shrink wrap to
`(uint16_t)(sys/(target*255)) - 1` (floored at 1) and recompute; if the
divider then falls below 1 grow wrap to `(uint16_t)(sys/target) - 1`
(with the unreachable 65535 clamp) and pin the divider at 1; floor wrap
at 2; level is wrap/2.  Returns `none` when the guard
`frequency > 0 && frequency <= MAX_UART_FREQ` fails. -/
def start_uart_pwm (frequency : Nat) : Option UartPwmParams :=
  if frequency > 0 ∧ frequency ≤ MAX_UART_FREQ then
    let sys_clock : ℚ := 125000000
    let target_freq : ℚ := (frequency : ℚ)
    let divider0 : ℚ := sys_clock / (target_freq * (1000 + 1))
    let cast1 : Nat := 125000000 / (frequency * 255) % 65536
    let wrap1 : Nat :=
      if divider0 > 255 then
        if ((((cast1 : Int) - 1) % 65536).toNat) < 1 then 1
        else (((cast1 : Int) - 1) % 65536).toNat
      else 1000
    let divider1 : ℚ :=
      if divider0 > 255 then sys_clock / (target_freq * (wrap1 + 1)) else divider0
    let cast2 : Nat := 125000000 / frequency % 65536
    let wrap2raw : Nat := (((cast2 : Int) - 1) % 65536).toNat
    let grow_clamp_test : Bool :=
      if divider1 < 1 then (if wrap2raw > 65535 then true else false) else false
    let wrap2 : Nat :=
      if divider1 < 1 then (if wrap2raw > 65535 then 65535 else wrap2raw) else wrap1
    let divider2 : ℚ := if divider1 < 1 then 1 else divider1
    let wrap3 : Nat := if wrap2 < 2 then 2 else wrap2
    some { divider := divider2, wrap := wrap3, level := wrap3 / 2,
           grow_clamp_test := grow_clamp_test }
  else
    none

/-! ## Claim C1 -/

/-- C1 counterexample: a session started in single-step mode captures
`edge_wait_mode = true`, yet a subsequent `update_reset_state` call made
after the active mode changed to low-frequency does not behave as the
edge-counting branch (a visible low-to-high transition is not counted and
the level snapshot is not refreshed), refuting the claim that the captured
flag alone selects the branch for the whole session. -/
theorem C1_strategy_capture_counterexample :
    (start_reset_pulse MODE_SINGLE_STEP false 0 reset_control_init).reset_waiting_for_edge
      = true
    ∧ update_reset_state MODE_LOW_FREQ true 100 0 0
        (start_reset_pulse MODE_SINGLE_STEP false 0 reset_control_init)
      ≠ reset_edge_branch true 0
        (start_reset_pulse MODE_SINGLE_STEP false 0 reset_control_init) := by
  decide

/-- C1 (amended): `start_reset_pulse` captures `edge_wait_mode` from the
mode active at trigger time and snapshots the output level, and the flag
never changes mid-session; but each `update_reset_state` call selects the
edge-counting branch if and only if the mode CURRENT at that call is
single-step — the captured flag only gates edge counting inside that
branch. -/
theorem C1_strategy_capture_amended (mode : ClockMode) (cs : Bool)
    (f uf now : Nat) (s : ResetState) :
    (start_reset_pulse mode cs now s).reset_waiting_for_edge
        = decide (mode = MODE_SINGLE_STEP)
    ∧ (start_reset_pulse mode cs now s).last_clock_state_for_reset = cs
    ∧ (s.reset_active = true →
        update_reset_state mode cs f uf now s
          = if mode = MODE_SINGLE_STEP then reset_edge_branch cs now s
            else reset_timed_branch mode f uf now s)
    ∧ (update_reset_state mode cs f uf now s).reset_waiting_for_edge
        = s.reset_waiting_for_edge := by
  refine ⟨rfl, rfl, ?_, ?_⟩
  · intro h
    simp [update_reset_state, h]
  · unfold update_reset_state reset_edge_branch reset_timed_branch
    split
    · rfl
    · split
      · dsimp only
        split
        · split <;> rfl
        · rfl
      · dsimp only
        split <;> rfl

/-- C1 witness: the amended theorem applied to a session started in
single-step mode and ticked while the mode is low-frequency. -/
theorem C1_strategy_capture_witness :
    update_reset_state MODE_LOW_FREQ true 100 0 0
        (start_reset_pulse MODE_SINGLE_STEP false 0 reset_control_init)
      = if MODE_LOW_FREQ = MODE_SINGLE_STEP then
          reset_edge_branch true 0
            (start_reset_pulse MODE_SINGLE_STEP false 0 reset_control_init)
        else
          reset_timed_branch MODE_LOW_FREQ 100 0 0
            (start_reset_pulse MODE_SINGLE_STEP false 0 reset_control_init) :=
  (C1_strategy_capture_amended MODE_LOW_FREQ true 100 0 0
    (start_reset_pulse MODE_SINGLE_STEP false 0 reset_control_init)).2.2.1 (by decide)

/-! ## Claim C2 -/

/-- C2 counterexample: in low-frequency mode at 7 Hz the code budgets
floor(6000/7) = 857 ms, so the session completes at elapsed 857 ms even
though the claimed ceiling budget ceil(6000/7) = 858 ms has not yet
elapsed — the budget is a truncating division, not a ceiling. -/
theorem C2_timed_budget_counterexample :
    (update_reset_state MODE_LOW_FREQ false 7 0 857
        (start_reset_pulse MODE_LOW_FREQ false 0 reset_control_init)).reset_active
      = false
    ∧ 857 < (RESET_CYCLES * 1000 + 7 - 1) / 7 := by
  decide

/-- C2 (amended): in the timed branch the budget is
`required_ms = floor(RESET_CYCLES * 1000 / active_frequency)` (C unsigned
division, not a ceiling), where the frequency is the synthesizer frequency
in low-frequency mode, the remembered remote frequency in remote mode, and
the fixed 1 MHz constant in high-frequency mode; a zero frequency falls
back to 60 ms, the result is clamped to at least 10 ms (exactly 10 ms in
high-frequency mode), and the session completes exactly when
`now - started_at ≥ required_ms`. -/
theorem C2_timed_budget_amended (mode : ClockMode) (cs : Bool)
    (f uf now : Nat) (s : ResetState) (hact : s.reset_active = true)
    (hmode : mode ≠ MODE_SINGLE_STEP) (hnow : s.reset_start_time ≤ now) :
    ((update_reset_state mode cs f uf now s).reset_active = false
        ↔ now - s.reset_start_time ≥ reset_required_ms mode f uf)
    ∧ (f > 0 → reset_required_ms MODE_LOW_FREQ f uf
        = max (RESET_CYCLES * 1000 / f) 10)
    ∧ (uf > 0 → reset_required_ms MODE_UART_CONTROL f uf
        = max (RESET_CYCLES * 1000 / uf) 10)
    ∧ reset_required_ms MODE_HIGH_FREQ f uf = 10
    ∧ (f = 0 → reset_required_ms MODE_LOW_FREQ f uf = 60)
    ∧ (uf = 0 → reset_required_ms MODE_UART_CONTROL f uf = 60) := by
  refine ⟨?_, ?_, ?_, ?_, ?_, ?_⟩
  · unfold update_reset_state reset_timed_branch
    rw [hact]
    simp only [Bool.not_true, Bool.false_eq_true, if_false, if_neg hmode]
    split
    · next h => simpa using h
    · next h =>
        rw [hact]
        simpa using h
  · intro hf
    unfold reset_required_ms reset_required_raw
    split_ifs <;> simp_all <;> omega
  · intro huf
    unfold reset_required_ms reset_required_raw
    split_ifs <;> simp_all <;> omega
  · unfold reset_required_ms reset_required_raw
    split_ifs <;> simp_all [RESET_CYCLES, HIGH_FREQ_OUTPUT]
  · intro hf
    unfold reset_required_ms reset_required_raw
    split_ifs <;> simp_all
  · intro huf
    unfold reset_required_ms reset_required_raw
    split_ifs <;> simp_all

/-- C2 witness: a session in high-frequency mode gets the 10 ms clamped
budget and completes at 10 ms. -/
theorem C2_timed_budget_witness :
    reset_required_ms MODE_HIGH_FREQ 0 0 = 10
    ∧ (update_reset_state MODE_HIGH_FREQ false 0 0 10
        (start_reset_pulse MODE_HIGH_FREQ false 0 reset_control_init)).reset_active
      = false := by
  have h := C2_timed_budget_amended MODE_HIGH_FREQ false 0 0 10
    (start_reset_pulse MODE_HIGH_FREQ false 0 reset_control_init)
    (by decide) (by decide) (by decide)
  exact ⟨h.2.2.2.1, h.1.mpr (by decide)⟩

/-! ## Claim C3 -/

/-- C3 counterexample: `set_mode` called to leave remote-control mode (for a
session holding remembered frequency 50 and three buffered characters)
leaves the remembered remote frequency and the line-buffer cursor untouched,
refuting the claim that the CommandSession state is cleared on exit. -/
theorem C3_leave_remote_counterexample :
    (set_mode MODE_SINGLE_STEP 0 2000
        ⟨MODE_UART_CONTROL, false, 0, false, false, false, true, 50, 3, 1000, true⟩).uart_set_frequency
      ≠ 0
    ∧ (set_mode MODE_SINGLE_STEP 0 2000
        ⟨MODE_UART_CONTROL, false, 0, false, false, false, true, 50, 3, 1000, true⟩).uart_cmd_index
      ≠ 0 := by
  decide

/-- C3 (amended): on any `set_mode` to a non-remote target the running flag
is cleared (unconditionally), but the remembered remote frequency and the
line-buffer cursor are preserved; the frequency is instead zeroed on
ENTERING remote-control mode.  The helper `reset_uart_control_state`, which
does clear all three, is never called by the `set_mode` in the sources. -/
theorem C3_leave_remote_amended (s : SystemState) (mode : ClockMode)
    (pot_freq now : Nat) (hmode : mode ≠ MODE_UART_CONTROL) :
    (set_mode mode pot_freq now s).uart_clock_running = false
    ∧ (set_mode mode pot_freq now s).uart_set_frequency = s.uart_set_frequency
    ∧ (set_mode mode pot_freq now s).uart_cmd_index = s.uart_cmd_index
    ∧ (set_mode MODE_UART_CONTROL pot_freq now s).uart_set_frequency = 0
    ∧ (reset_uart_control_state s).uart_clock_running = false
    ∧ (reset_uart_control_state s).uart_set_frequency = 0
    ∧ (reset_uart_control_state s).uart_cmd_index = 0 := by
  cases mode <;>
    simp_all [set_mode, update_low_frequency, reset_uart_control_state] <;>
    split_ifs <;>
    simp_all

/-- C3 witness: the amended theorem applied to a remote session with
remembered frequency 50 and cursor 3, exited toward single-step mode. -/
theorem C3_leave_remote_witness :
    (set_mode MODE_SINGLE_STEP 0 2000
        ⟨MODE_UART_CONTROL, false, 0, false, false, false, true, 50, 3, 1000, true⟩).uart_clock_running
      = false
    ∧ (set_mode MODE_SINGLE_STEP 0 2000
        ⟨MODE_UART_CONTROL, false, 0, false, false, false, true, 50, 3, 1000, true⟩).uart_set_frequency
      = 50 := by
  have h := C3_leave_remote_amended
    ⟨MODE_UART_CONTROL, false, 0, false, false, false, true, 50, 3, 1000, true⟩
    MODE_SINGLE_STEP 0 2000 (by decide)
  exact ⟨h.1, h.2.1⟩

/-! ## Claim C4 -/

/-- C4: the power toggle flips the latch; exactly on the OFF-to-ON
transition — whether through the physical toggle or the remote `power on`
command — the mode controller is forced to single-step (manual) mode, and
an ON-to-OFF toggle changes nothing besides the latch. -/
theorem C4_power_off_on_edge (p : Bool) (pot_freq now : Nat) (s : SystemState) :
    (toggle_power_state p pot_freq now s).1 = !p
    ∧ (toggle_power_state p pot_freq now s).2.current_mode
        = (if p then s.current_mode else MODE_SINGLE_STEP)
    ∧ (toggle_power_state true pot_freq now s).2 = s
    ∧ (uart_power_on_command p pot_freq now s).1 = true
    ∧ (uart_power_on_command p pot_freq now s).2.current_mode
        = (if p then s.current_mode else MODE_SINGLE_STEP)
    ∧ (uart_power_on_command true pot_freq now s).2 = s := by
  cases p <;> simp [toggle_power_state, uart_power_on_command, set_mode]

/-! ## Claim C5 -/

/-- C5 counterexample: with only the reset button pressed (and the deadline
not expired) `handle_uart_control` does not exit remote-control mode,
although the claim-side predicate built from "any of the five physical
buttons" demands an exit to the remembered previous mode. -/
theorem C5_remote_exit_counterexample :
    handle_uart_control_exit false false false true false 5 100 MODE_LOW_FREQ = none
    ∧ claim_uart_exit false false false true false 5 100 MODE_LOW_FREQ
      = some MODE_LOW_FREQ := by
  decide

/-- C5 (amended): while in remote-control mode, a press of one of the THREE
mode-select buttons, or deadline expiry (strictly `now > deadline`), makes
the handler exit to the remembered previous mode; the reset and power
button levels have no influence on this decision. -/
theorem C5_remote_exit_amended (single_step_down low_freq_down high_freq_down
    reset_down power_down reset_down2 power_down2 : Bool)
    (now timeout : Nat) (prev : ClockMode) :
    handle_uart_control_exit single_step_down low_freq_down high_freq_down
        reset_down power_down now timeout prev
      = (if (single_step_down || low_freq_down || high_freq_down)
            || decide (now > timeout) then some prev else none)
    ∧ handle_uart_control_exit single_step_down low_freq_down high_freq_down
        reset_down power_down now timeout prev
      = handle_uart_control_exit single_step_down low_freq_down high_freq_down
          reset_down2 power_down2 now timeout prev := by
  unfold handle_uart_control_exit any_button_pressed
  constructor
  · split_ifs <;> simp_all <;> omega
  · rfl

/-! ## Claim C6 -/

/-- C6: the banded primary solver follows the claimed policy on every band
(hard floor pair below 8 Hz; divider 255 with clamped wrap in [8, 1000);
wrap 124 with solved divider at or above 1000 Hz, falling back to divider 1
with clamped wrap when the solved divider is below 1), and the fixed
high-speed path bypasses it with the constant triple (125, 1, 1). -/
theorem C6_banded_solver (t : Nat) :
    (t < 8 → solve_duty_params t = (255, 65535, 32767))
    ∧ (8 ≤ t → t < 1000 →
        solve_duty_params t
          = (255, min (125000000 / (255 * t) - 1) 65535,
              min (125000000 / (255 * t) - 1) 65535 / 2))
    ∧ (1000 ≤ t → 1 ≤ 125000000 / (t * 125) →
        solve_duty_params t = (125000000 / (t * 125), 124, 62))
    ∧ (1000 ≤ t → 125000000 / (t * 125) < 1 →
        solve_duty_params t
          = (1, min (125000000 / t - 1) 65535,
              min (125000000 / t - 1) 65535 / 2))
    ∧ start_high_frequency_params = (125, 1, 1) := by
  refine ⟨?_, ?_, ?_, ?_, rfl⟩
  · intro h
    unfold solve_duty_params
    rw [if_pos h]
  · intro h8 h1000
    unfold solve_duty_params
    rw [if_neg (by omega), if_pos h1000]
  · intro h1000 hdiv
    unfold solve_duty_params
    rw [if_neg (by omega), if_neg (by omega), if_neg (Nat.not_lt.mpr hdiv)]
  · intro h1000 hdiv
    unfold solve_duty_params
    rw [if_neg (by omega), if_neg (by omega), if_pos hdiv]

/-- C6 witness: the solver evaluated in each band and at the 1 MHz point
where the solved divider is exactly 1. -/
theorem C6_banded_solver_witness :
    solve_duty_params 5 = (255, 65535, 32767)
    ∧ solve_duty_params 1000000 = (1, 124, 62) := by
  refine ⟨(C6_banded_solver 5).1 (by decide), ?_⟩
  have h := (C6_banded_solver 1000000).2.2.1 (by decide) (by decide)
  exact h

/-! ## Claim C8 -/

/-- C8 counterexample: (i) with the timer at 0, an assertion at exactly
50 ms is refused although at least 50 ms have elapsed (the test is strictly
greater-than); (ii) a single continuous press held from before t = 60 ms
through t = 111 ms is accepted twice, refuting "true at most once per
continuous physical press". -/
theorem C8_debounce_counterexample :
    (button_pressed (fun _ => 0) 0 true 50).1 = false
    ∧ (button_pressed (fun _ => 0) 0 true 60).1 = true
    ∧ (button_pressed (button_pressed (fun _ => 0) 0 true 60).2 0 true 111).1 = true := by
  decide

/-- C8 (amended): `button_pressed` returns true iff the input is asserted
and STRICTLY more than 50 ms have elapsed since the stored timestamp for
that index; a true return updates exactly that index's timestamp to `now`,
a false return changes nothing, other indices are never touched, and two
consecutive accepted events for one index are always more than 50 ms
apart — but a press held longer than the window is accepted repeatedly,
so once-per-press holds only for presses shorter than the window. -/
theorem C8_debounce_amended (last : Fin 5 → Nat) (idx : Fin 5)
    (pressed : Bool) (now : Nat) :
    ((button_pressed last idx pressed now).1
        = (pressed && decide (now - last idx > DEBOUNCE_DELAY_MS)))
    ∧ ((button_pressed last idx pressed now).1 = true →
        (button_pressed last idx pressed now).2 = Function.update last idx now)
    ∧ ((button_pressed last idx pressed now).1 = false →
        (button_pressed last idx pressed now).2 = last)
    ∧ (∀ j, j ≠ idx → (button_pressed last idx pressed now).2 j = last j)
    ∧ (∀ pressed2 now2,
        (button_pressed last idx pressed now).1 = true →
        (button_pressed (button_pressed last idx pressed now).2 idx pressed2 now2).1
          = true →
        now2 - now > DEBOUNCE_DELAY_MS) := by
  unfold button_pressed
  split_ifs with h
  · refine ⟨h.symm, fun _ => rfl, by simp, ?_, ?_⟩
    · intro j hj
      exact Function.update_noteq hj _ _
    · intro p2 n2 _ h2
      dsimp only at h2
      split at h2
      · next hc =>
          rw [Bool.and_eq_true] at hc
          have hd := of_decide_eq_true hc.2
          simpa [Function.update_same] using hd
      · simp at h2
  · refine ⟨?_, by simp, fun _ => rfl, fun j hj => rfl, ?_⟩
    · simp only [Bool.not_eq_true] at h
      exact h.symm
    · intro p2 n2 hTrue h2
      exact absurd hTrue (by simp)

/-- C8 witness: the amended theorem applied to the double-accept trace of
the counterexample (accept at 60 ms, press still held at 111 ms). -/
theorem C8_debounce_witness :
    (button_pressed (fun _ => 0) 0 true 60).2 = Function.update (fun _ => 0) 0 60
    ∧ 111 - 60 > DEBOUNCE_DELAY_MS := by
  have h := C8_debounce_amended (fun _ => 0) 0 true 60
  exact ⟨h.2.1 (by decide), h.2.2.2.2 true 111 (by decide) (by decide)⟩

/-! ## Claim C9 -/

/-- C9: the potentiometer mapping sends [0, 819] into [1, 100] with the
stated endpoint values and boundary ownership, sends [820, 4095] into
[100, 100000] reaching 100000 at 4095, and is non-decreasing over the
whole 12-bit range, including across the branch boundary. -/
theorem C9_pot_mapping :
    (∀ a, a ≤ 819 →
        1 ≤ calculate_frequency_from_pot a ∧ calculate_frequency_from_pot a ≤ 100)
    ∧ calculate_frequency_from_pot 0 = 1
    ∧ calculate_frequency_from_pot 819 = 100
    ∧ (∀ a, 820 ≤ a → a ≤ 4095 →
        100 ≤ calculate_frequency_from_pot a
          ∧ calculate_frequency_from_pot a ≤ 100000)
    ∧ calculate_frequency_from_pot 4095 = 100000
    ∧ (∀ a b, a ≤ b → b ≤ 4095 →
        calculate_frequency_from_pot a ≤ calculate_frequency_from_pot b) := by
  refine ⟨?_, by decide, by decide, ?_, by decide, ?_⟩
  · intro a ha
    simp only [calculate_frequency_from_pot, MIN_LOW_FREQ, MAX_LOW_FREQ_RANGE1,
      MAX_LOW_FREQ_RANGE2]
    split_ifs <;> omega
  · intro a ha1 ha2
    simp only [calculate_frequency_from_pot, MIN_LOW_FREQ, MAX_LOW_FREQ_RANGE1,
      MAX_LOW_FREQ_RANGE2]
    split_ifs <;> omega
  · intro a b hab hb
    simp only [calculate_frequency_from_pot, MIN_LOW_FREQ, MAX_LOW_FREQ_RANGE1,
      MAX_LOW_FREQ_RANGE2]
    split_ifs <;> omega

/-- C9 witness: endpoint and boundary instances of the theorem. -/
theorem C9_pot_mapping_witness :
    (1 ≤ calculate_frequency_from_pot 0 ∧ calculate_frequency_from_pot 0 ≤ 100)
    ∧ (100 ≤ calculate_frequency_from_pot 4095
        ∧ calculate_frequency_from_pot 4095 ≤ 100000)
    ∧ calculate_frequency_from_pot 819 ≤ calculate_frequency_from_pot 820 :=
  ⟨C9_pot_mapping.1 0 (by decide),
    C9_pot_mapping.2.2.2.1 4095 (by decide) (by decide),
    C9_pot_mapping.2.2.2.2.2 819 820 (by decide) (by decide)⟩

/-! ## Claim C10 -/

/-- C10: at the accepted request of 1 Hz the shrink step's value
125000000/255 = 490196 exceeds 65535 and is truncated mod 2^16, leaving
wrap = 31443; the `if (wrap > 65535)` test of the grow branch is false on
every input (wrap is 16-bit); the divider handed to the hardware,
125000000/31444 ≈ 3975.3, exceeds the 8-bit limit of 255; and no
hardware-representable divider (at most 256) can make the configured wrap
produce the requested 1 Hz. -/
theorem C10_uart_solver_low_end :
    125000000 / (1 * 255) > 65535
    ∧ start_uart_pwm 1
        = some { divider := (125000000 : ℚ) / 31444, wrap := 31443, level := 15721,
                 grow_clamp_test := false }
    ∧ (125000000 : ℚ) / 31444 > 255
    ∧ (∀ f p, start_uart_pwm f = some p → p.grow_clamp_test = false)
    ∧ (∀ d : ℚ, 0 < d → d ≤ 256 → 125000000 / (d * (31443 + 1)) > 1) := by
  refine ⟨by decide, ?_, by norm_num, ?_, ?_⟩
  · unfold start_uart_pwm
    rw [if_pos (by decide : 1 > 0 ∧ 1 ≤ MAX_UART_FREQ)]
    norm_num [show Int.toNat 31443 = 31443 from rfl, show Int.toNat 22847 = 22847 from rfl]
  · intro f p h
    unfold start_uart_pwm at h
    split_ifs at h
    injection h with h2
    subst h2
    dsimp only
    split_ifs <;> first | rfl | omega
  · intro d hd hle
    rw [gt_iff_lt, lt_div_iff₀ (by positivity)]
    nlinarith [hd, hle]

/-- C10 witness: the universal conjuncts of the theorem applied to the
1 Hz parameters and to the maximal representable divider 256. -/
theorem C10_uart_solver_low_end_witness :
    ({ divider := (125000000 : ℚ) / 31444, wrap := 31443, level := 15721,
        grow_clamp_test := false } : UartPwmParams).grow_clamp_test = false
    ∧ (125000000 : ℚ) / (256 * (31443 + 1)) > 1 := by
  have h := C10_uart_solver_low_end
  exact ⟨h.2.2.2.1 1 _ h.2.1, h.2.2.2.2 256 (by norm_num) (by norm_num)⟩

/-! ## Claim C7 -/

/-- When the digit run exhausts the list, the digit prefix is the list. -/
lemma takeWhile_eq_self_of_dropWhile_eq_nil {p : Char → Bool} {l : List Char}
    (h : l.dropWhile p = []) : l.takeWhile p = l := by
  have hs := List.takeWhile_append_dropWhile (p := p) (l := l)
  rw [h, List.append_nil] at hs
  exact hs

/-- Core characterization shared by the sign cases of `freq_command`: for a
sign-stripped body parsed with positive sign, passing the format and range
checks with value `v` is the same as the body being a nonempty all-digit
string of value `v` within [MIN_UART_FREQ, MAX_UART_FREQ]. -/
lemma freq_digits_core (body : List Char) (v : Nat) :
    (¬((body.takeWhile Char.isDigit).isEmpty = true
        ∨ ¬((body.dropWhile Char.isDigit).isEmpty = true))
      ∧ ¬((1 : Int) * (digits_to_nat (body.takeWhile Char.isDigit) : Int)
            < (MIN_UART_FREQ : Int)
          ∨ (1 : Int) * (digits_to_nat (body.takeWhile Char.isDigit) : Int)
            > (MAX_UART_FREQ : Int))
      ∧ ((1 : Int) * (digits_to_nat (body.takeWhile Char.isDigit) : Int)).toNat = v)
    ↔ (!body.isEmpty && body.all Char.isDigit && decide (digits_to_nat body = v)
        && decide (MIN_UART_FREQ ≤ v) && decide (v ≤ MAX_UART_FREQ)) = true := by
  constructor
  · rintro ⟨hIf, hRange, hVal⟩
    rw [not_or] at hIf
    obtain ⟨hds, hrest0⟩ := hIf
    have hrest : (body.dropWhile Char.isDigit).isEmpty = true := not_not.mp hrest0
    have hdropnil : body.dropWhile Char.isDigit = [] := by
      simpa using hrest
    have htake := takeWhile_eq_self_of_dropWhile_eq_nil hdropnil
    rw [htake] at hds hVal
    rw [htake, not_or] at hRange
    obtain ⟨hlo, hhi⟩ := hRange
    rw [one_mul] at hVal hlo hhi
    simp only [MIN_UART_FREQ, MAX_UART_FREQ] at hlo hhi
    have hbe : body.isEmpty = false := by
      cases hb : body.isEmpty
      · rfl
      · exact absurd hb hds
    simp only [Bool.and_eq_true, decide_eq_true_eq, MIN_UART_FREQ, MAX_UART_FREQ]
    refine ⟨⟨⟨⟨?_, ?_⟩, ?_⟩, ?_⟩, ?_⟩
    · simp [hbe]
    · exact List.all_eq_true.mpr fun x hx =>
        (List.dropWhile_eq_nil_iff.mp hdropnil) x hx
    · omega
    · omega
    · omega
  · intro h
    simp only [Bool.and_eq_true, decide_eq_true_eq, MIN_UART_FREQ, MAX_UART_FREQ] at h
    obtain ⟨⟨⟨⟨h1, h2⟩, h3⟩, h4⟩, h5⟩ := h
    have hall := List.all_eq_true.mp h2
    have hdropnil : body.dropWhile Char.isDigit = [] :=
      List.dropWhile_eq_nil_iff.mpr fun x hx => hall x hx
    have htake := takeWhile_eq_self_of_dropWhile_eq_nil hdropnil
    refine ⟨?_, ?_, ?_⟩
    · rw [not_or, htake]
      constructor
      · simp only [Bool.not_eq_true] at h1 ⊢
        simpa using h1
      · exact not_not.mpr (by simp [hdropnil])
    · rw [htake, not_or, one_mul]
      simp only [MIN_UART_FREQ, MAX_UART_FREQ]
      constructor <;> omega
    · rw [htake, one_mul]
      omega

/-- Sign consumption on a leading plus. -/
lemma strtol_sign_plus (r : List Char) : strtol_sign ('+' :: r) = (1, r) := by
  simp [strtol_sign]

/-- Sign consumption on a leading minus. -/
lemma strtol_sign_minus (r : List Char) : strtol_sign ('-' :: r) = (-1, r) := by
  have h : ¬('-' : Char) = '+' := by decide
  simp [strtol_sign, h]

/-- Sign consumption on any other head. -/
lemma strtol_sign_other (c : Char) (r : List Char) (h1 : ¬c = '+') (h2 : ¬c = '-') :
    strtol_sign (c :: r) = (1, c :: r) := by
  simp [strtol_sign, h1, h2]

/-- `freq_command` on a nonempty stripped token, before sign resolution. -/
lemma freq_command_cons (tok : List Char) (s : UartState) (c : Char) (r : List Char)
    (ht : tok.dropWhile (fun ch => ch = ' ') = c :: r) :
    freq_command tok s
      = (if ((strtol_sign (c :: r)).2.takeWhile Char.isDigit).isEmpty
            ∨ ¬((strtol_sign (c :: r)).2.dropWhile Char.isDigit).isEmpty then
          (FreqResponse.invalidFormat, s)
        else if (strtol_sign (c :: r)).1
              * (digits_to_nat ((strtol_sign (c :: r)).2.takeWhile Char.isDigit) : Int)
              < (MIN_UART_FREQ : Int)
            ∨ (strtol_sign (c :: r)).1
              * (digits_to_nat ((strtol_sign (c :: r)).2.takeWhile Char.isDigit) : Int)
              > (MAX_UART_FREQ : Int) then
          (FreqResponse.outOfRange, s)
        else
          (FreqResponse.accepted ((strtol_sign (c :: r)).1
              * (digits_to_nat ((strtol_sign (c :: r)).2.takeWhile Char.isDigit) : Int)).toNat,
            { s with
              uart_set_frequency := ((strtol_sign (c :: r)).1
                * (digits_to_nat ((strtol_sign (c :: r)).2.takeWhile Char.isDigit) : Int)).toNat,
              uart_clock_running := true,
              uart_pwm_active := true })) := by
  simp only [freq_command, ht, List.isEmpty_cons, Bool.false_eq_true, if_false]

/-- `freq_token_accept` on a plus-signed token. -/
lemma freq_token_accept_plus (r : List Char) (v : Nat) :
    freq_token_accept ('+' :: r) v
      = (!r.isEmpty && r.all Char.isDigit && decide (digits_to_nat r = v)
          && decide (MIN_UART_FREQ ≤ v) && decide (v ≤ MAX_UART_FREQ)) := by
  simp [freq_token_accept]

/-- `freq_token_accept` on a token not starting with a plus. -/
lemma freq_token_accept_not_plus (t : List Char) (v : Nat) (h : t.head? ≠ some '+') :
    freq_token_accept t v
      = (!t.isEmpty && t.all Char.isDigit && decide (digits_to_nat t = v)
          && decide (MIN_UART_FREQ ≤ v) && decide (v ≤ MAX_UART_FREQ)) := by
  simp [freq_token_accept, h]

/-- C7 counterexample: the token `+50` is accepted by the `freq` branch
(the remembered frequency becomes 50, running and generation flags raised)
although it is not a pure (digit-only) integer token, refuting "accepts
exactly the tokens that parse as a pure integer in [1, 1000000]". -/
theorem C7_freq_counterexample :
    (freq_command ['+', '5', '0'] ⟨false, 0, false⟩).1 = FreqResponse.accepted 50
    ∧ (freq_command ['+', '5', '0'] ⟨false, 0, false⟩).2
      = { uart_clock_running := true, uart_set_frequency := 50,
          uart_pwm_active := true }
    ∧ pure_digit_token ['+', '5', '0'] = false := by
  decide

/-- C7 (amended): after stripping leading spaces, the `freq` branch accepts
exactly the tokens consisting of an OPTIONAL LEADING PLUS SIGN followed by
one or more digits and nothing else, whose value lies in
[MIN_UART_FREQ, MAX_UART_FREQ] (a minus-signed token always fails the range
check); any rejection leaves the state unchanged, and acceptance of value
`v` stores `v` as the remembered remote frequency, raises the running flag
and starts PWM generation. -/
theorem C7_freq_amended (tok : List Char) (s : UartState) :
    (∀ v, ((freq_command tok s).1 = FreqResponse.accepted v
        ↔ freq_token_accept (tok.dropWhile (fun c => c = ' ')) v = true))
    ∧ ((freq_command tok s).2 = s
        ∨ ∃ v, (freq_command tok s).1 = FreqResponse.accepted v)
    ∧ (∀ v, (freq_command tok s).1 = FreqResponse.accepted v →
        (freq_command tok s).2
          = { uart_clock_running := true, uart_set_frequency := v,
              uart_pwm_active := true }) := by
  refine ⟨?_, ?_, ?_⟩
  · intro v
    rcases ht : tok.dropWhile (fun c => c = ' ') with _ | ⟨c, r⟩
    · simp [freq_command, ht, freq_token_accept]
    · rw [freq_command_cons tok s c r ht]
      by_cases hplus : c = '+'
      · subst hplus
        rw [strtol_sign_plus, freq_token_accept_plus]
        dsimp only
        rw [← freq_digits_core r v]
        constructor
        · intro h
          split_ifs at h with h1 h2
          refine ⟨h1, h2, ?_⟩
          simp only [FreqResponse.accepted.injEq] at h
          omega
        · rintro ⟨h1, h2, h3⟩
          rw [if_neg h1, if_neg h2]
          simp only [FreqResponse.accepted.injEq]
          exact h3
      · by_cases hminus : c = '-'
        · subst hminus
          rw [strtol_sign_minus,
            freq_token_accept_not_plus _ _ (by simp), ]
          dsimp only
          have hfa : (!('-' :: r).isEmpty && ('-' :: r).all Char.isDigit
              && decide (digits_to_nat ('-' :: r) = v)
              && decide (MIN_UART_FREQ ≤ v) && decide (v ≤ MAX_UART_FREQ)) = false := by
            simp [show ('-' : Char).isDigit = false from rfl]
          rw [hfa]
          simp only [Bool.false_eq_true, iff_false]
          intro h
          split_ifs at h with h1 h2
          simp only [MIN_UART_FREQ, MAX_UART_FREQ] at h2
          omega
        · rw [strtol_sign_other c r hplus hminus,
            freq_token_accept_not_plus _ _ (by simp [hplus])]
          dsimp only
          rw [← freq_digits_core (c :: r) v]
          constructor
          · intro h
            split_ifs at h with h1 h2
            refine ⟨h1, h2, ?_⟩
            simp only [FreqResponse.accepted.injEq] at h
            omega
          · rintro ⟨h1, h2, h3⟩
            rw [if_neg h1, if_neg h2]
            simp only [FreqResponse.accepted.injEq]
            exact h3
  · simp only [freq_command]
    split_ifs <;> simp
  · intro v hv
    simp only [freq_command] at hv ⊢
    split_ifs at hv ⊢ <;> simp_all

/-- C7 witness: the amended theorem at the token `50`, which is accepted
with value 50 and mutates the session state accordingly. -/
theorem C7_freq_witness :
    (freq_command ['5', '0'] ⟨false, 0, false⟩).1 = FreqResponse.accepted 50
    ∧ (freq_command ['5', '0'] ⟨false, 0, false⟩).2
      = { uart_clock_running := true, uart_set_frequency := 50,
          uart_pwm_active := true } := by
  have h := C7_freq_amended ['5', '0'] ⟨false, 0, false⟩
  have ha : (freq_command ['5', '0'] ⟨false, 0, false⟩).1 = FreqResponse.accepted 50 :=
    (h.1 50).mpr (by decide)
  exact ⟨ha, h.2.2 50 ha⟩

end RetroClock
